import Mathlib

set_option linter.unusedVariables false

/-!
Shallow embedding of the EverWith backend credit / usage-entitlement engine:
`backend/app/routers/subscription_api.py`, `backend/app/core/credit_config.py`,
`backend/app/models/database.py` and `backend/app/routers/share.py`.

Conventions of the embedding:
* `datetime.utcnow()` is passed in explicitly as a `Datetime` argument
  (calendar year, calendar month, and an abstract remainder `rest` for the
  instant inside the month; the engine only ever reads `year` and `month`).
* Python ints are `Int`; Mongo documents are Lean structures; the document
  store touched by an endpoint is threaded explicitly.
* An endpoint that raises `HTTPException` is modelled with `Except HTTPError`;
  since a raised exception skips every `insert`/`save` that follows it in the
  source, an `.error` result carries no state and the persisted state is the
  input state (made explicit by `apply_use` / `apply_verify_share`).
* `await doc.save()` / `await doc.insert()` calls are the only persistence
  points; an endpoint that never calls them leaves the store unchanged
  (`check_access` returns an explicit `saved` flag recording this).
-/

deriving instance DecidableEq for Except

/-- A UTC timestamp: calendar year, calendar month, and the remainder of the
instant inside the month. The credit logic only compares `year`/`month`, but
watermarks store the whole instant. -/
structure Datetime where
  year : Nat
  month : Nat
  rest : Nat
deriving DecidableEq

/-- `datetime.utcnow() + timedelta(days = plusDays)`, kept symbolically: the
engine writes `subscription_expires_at` but never reads it back. -/
structure Expiry where
  base : Datetime
  plusDays : Nat
deriving DecidableEq

/-- `app/core/credit_config.py`: `ServiceType` enum. -/
inductive ServiceType where
  | photo_restore
  | memory_merge
  | cinematic_filter
deriving DecidableEq, BEq

/-- `SERVICE_CREDIT_COSTS` dict from `credit_config.py`. -/
def SERVICE_CREDIT_COSTS : List (ServiceType × Int) :=
  [(ServiceType.photo_restore, 1), (ServiceType.memory_merge, 2),
   (ServiceType.cinematic_filter, 3)]

/-- `get_credit_cost`: dict lookup with default 1. -/
def get_credit_cost (service_type : ServiceType) : Int :=
  (SERVICE_CREDIT_COSTS.lookup service_type).getD 1

def FREE_MONTHLY_CREDITS : Int := 3

def INITIAL_SIGNUP_CREDITS : Int := 3

def PREMIUM_SOFT_LIMIT : Int := 100

def PREMIUM_CREDITS_ON_UPGRADE : Int := 50

def PREMIUM_YEARLY_BONUS : Int := 200

/-- The user document (`app/models/database.py`, class `User`), restricted to
the monetization fields the entitlement engine reads or writes. -/
structure User where
  subscription_tier : String
  subscription_expires_at : Option Expiry
  credits : Int
  free_uses_remaining : Int
  monthly_credits_reset_date : Option Datetime
  premium_usage_this_month : Int
  premium_usage_reset_date : Option Datetime
deriving DecidableEq

/-- The list `["premium_monthly", "premium_yearly"]` used for the tier test in
`subscription_api.py`. -/
def premiumTiers : List String := ["premium_monthly", "premium_yearly"]

/-- `reset_free_user_monthly_credits` from `subscription_api.py` (the source
early-returns `False` for non-free tiers; the mutation of the in-memory user
is returned alongside the `bool` result). -/
def reset_free_user_monthly_credits (now : Datetime) (user : User) : Bool × User :=
  if user.subscription_tier = "free" then
    match user.monthly_credits_reset_date with
    | none =>
      (true, { user with monthly_credits_reset_date := some now,
                         credits := FREE_MONTHLY_CREDITS })
    | some d =>
      if d.month ≠ now.month ∨ d.year ≠ now.year then
        (true, { user with monthly_credits_reset_date := some now,
                           credits := FREE_MONTHLY_CREDITS })
      else
        (false, user)
  else
    (false, user)

/-- `reset_premium_usage_tracking` from `subscription_api.py`. -/
def reset_premium_usage_tracking (now : Datetime) (user : User) : Bool × User :=
  if premiumTiers.contains user.subscription_tier then
    match user.premium_usage_reset_date with
    | none =>
      (true, { user with premium_usage_this_month := 0,
                         premium_usage_reset_date := some now })
    | some d =>
      if d.month ≠ now.month ∨ d.year ≠ now.year then
        (true, { user with premium_usage_this_month := 0,
                           premium_usage_reset_date := some now })
      else
        (false, user)
  else
    (false, user)

/-- `can_use_feature` from `subscription_api.py` (the source's default
`credits_needed=1` is always passed explicitly by the endpoints we model). -/
def can_use_feature (now : Datetime) (user : User) (credits_needed : Int) : Bool × User :=
  if premiumTiers.contains user.subscription_tier then
    let user := (reset_premium_usage_tracking now user).2
    if PREMIUM_SOFT_LIMIT ≤ user.premium_usage_this_month then
      (false, user)
    else
      (true, user)
  else
    let user := (reset_free_user_monthly_credits now user).2
    (decide (credits_needed ≤ user.credits), user)

/-- The `service_type_map.get(request.mode, ServiceType.PHOTO_RESTORE)`
dispatch shared by `check_access` and `use_credit`. -/
def service_type_for (mode : String) : ServiceType :=
  if mode = "restore" then ServiceType.photo_restore
  else if mode = "together" then ServiceType.memory_merge
  else if mode = "cinematic" then ServiceType.cinematic_filter
  else ServiceType.photo_restore

structure AccessCheckResponse where
  has_access : Bool
  remaining_credits : Int
  free_uses_remaining : Int
  subscription_tier : String
  message : String
deriving DecidableEq

/-- `POST /check-access` (`check_access` in `subscription_api.py`). Besides
the response it returns the mutated in-memory user and a flag recording
whether the endpoint issued a `save` of the user document — the source never
calls `current_user.save()` here, so the flag is `false` on every path. -/
def check_access (now : Datetime) (mode : String) (current_user : User) :
    AccessCheckResponse × User × Bool :=
  let credits_needed := get_credit_cost (service_type_for mode)
  let p := can_use_feature now current_user credits_needed
  let has_access := p.1
  let u := p.2
  if premiumTiers.contains u.subscription_tier then
    let u := (reset_premium_usage_tracking now u).2
    let remaining_uses := PREMIUM_SOFT_LIMIT - u.premium_usage_this_month
    let message :=
      if has_access then
        s!"Access granted. {remaining_uses}/{PREMIUM_SOFT_LIMIT} uses remaining this month"
      else
        s!"Monthly limit reached ({PREMIUM_SOFT_LIMIT} uses)"
    ({ has_access := has_access, remaining_credits := u.credits,
       free_uses_remaining := 0, subscription_tier := u.subscription_tier,
       message := message }, u, false)
  else
    let c := u.credits
    let message :=
      if has_access then
        s!"Access granted ({credits_needed} credit(s) required)"
      else
        s!"Insufficient credits. Need {credits_needed}, have {c} credits"
    ({ has_access := has_access, remaining_credits := u.credits,
       free_uses_remaining := 0, subscription_tier := u.subscription_tier,
       message := message }, u, false)

/-- The user document as persisted after a `check_access` call: the endpoint
saves the user only if its save flag is set (it never is — see
`check_access`). -/
def check_access_stored (now : Datetime) (mode : String) (u : User) : User :=
  let r := check_access now mode u
  if r.2.2 then r.2.1 else u

/-- A raised `fastapi.HTTPException`. -/
structure HTTPError where
  code : Nat
  detail : String
deriving DecidableEq

/-- `UsageLog` document (fields written by `use_credit`). -/
structure UsageLogRec where
  mode : String
  used_credit : Bool
  used_free_use : Bool
deriving DecidableEq

/-- `CreditTransaction` document (the credit ledger). -/
structure CreditTransactionRec where
  credits : Int
  transaction_type : String
  description : Option String
  transaction_id : Option String
  receipt_data : Option String
deriving DecidableEq

/-- `Transaction` document (purchase audit log). -/
structure TransactionRec where
  product_id : String
  transaction_id : String
  purchase_type : String
  revenue_cat_data : String
deriving DecidableEq

/-- The slice of the document store the credit endpoints read and write:
the authenticated user's document plus the append-only logs. -/
structure DB where
  user : User
  usage_logs : List UsageLogRec
  credit_transactions : List CreditTransactionRec
  transactions : List TransactionRec
deriving DecidableEq

structure CreditUsageResponse where
  success : Bool
  remaining_credits : Int
  free_uses_remaining : Int
  message : String
deriving DecidableEq

/-- `POST /use-credit` (`use_credit` in `subscription_api.py`). The returned
`Bool` is the `used_credit` flag. A raised `HTTPException` (429 rate limit,
402 insufficient credits) aborts the handler before any insert/save, so an
`.error` result leaves the store untouched. -/
def use_credit (now : Datetime) (mode : String) (transaction_id : Option String)
    (db : DB) : Except HTTPError (DB × CreditUsageResponse × Bool) :=
  let credits_needed := get_credit_cost (service_type_for mode)
  let u := db.user
  let is_premium := premiumTiers.contains u.subscription_tier
  if is_premium then
    let u := (reset_premium_usage_tracking now u).2
    if PREMIUM_SOFT_LIMIT ≤ u.premium_usage_this_month then
      let n := u.premium_usage_this_month
      Except.error
        { code := 429,
          detail := s!"Monthly usage limit reached. You have used {n}/{PREMIUM_SOFT_LIMIT} this month." }
    else
      let u := { u with premium_usage_this_month := u.premium_usage_this_month + 1 }
      let log : UsageLogRec := { mode := mode, used_credit := false, used_free_use := false }
      Except.ok
        ({ db with user := u, usage_logs := db.usage_logs ++ [log] },
         { success := true,
           remaining_credits := u.credits,
           free_uses_remaining := 0,
           message := "Processing started (Premium - Unlimited access)" },
         false)
  else if credits_needed ≤ u.credits then
    let u := { u with credits := u.credits - credits_needed }
    let log : UsageLogRec := { mode := mode, used_credit := true, used_free_use := false }
    let txn : CreditTransactionRec :=
      { credits := -credits_needed, transaction_type := "usage",
        description := some (s!"Used for {mode} processing"),
        transaction_id := transaction_id, receipt_data := none }
    let txns :=
      if 0 < credits_needed then db.credit_transactions ++ [txn]
      else db.credit_transactions
    Except.ok
      ({ db with
          user := u,
          usage_logs := db.usage_logs ++ [log],
          credit_transactions := txns },
       { success := true,
         remaining_credits := u.credits,
         free_uses_remaining := 0,
         message := s!"Processing started using {credits_needed} credit(s)" },
       true)
  else
    let c := u.credits
    Except.error
      { code := 402,
        detail := s!"Insufficient credits. Need {credits_needed}, have {c}" }

/-- Status code of a handler outcome (`none` when no exception was raised). -/
def exceptCode {α : Type} (r : Except HTTPError α) : Option Nat :=
  match r with
  | Except.error e => some e.code
  | Except.ok _ => none

/-- Persisted store after a `use_credit` call: on success the mutated store,
on a raised exception the original store (nothing was inserted or saved). -/
def apply_use (now : Datetime) (mode : String) (transaction_id : Option String)
    (db : DB) : DB :=
  match use_credit now mode transaction_id db with
  | Except.ok (db2, _, _) => db2
  | Except.error _ => db

/-- Persisted store after a whole sequence of `use_credit` calls. -/
def fold_use (calls : List (Datetime × String × Option String)) (db : DB) : DB :=
  calls.foldl (fun db c => apply_use c.1 c.2.1 c.2.2 db) db

/-- `n` consecutive `use_credit` calls, all of which must succeed; collects
the `used_credit` flag of each call in order. -/
def iterate_use : Nat → Datetime → String → DB → Except HTTPError (DB × List Bool)
  | 0, _, _, db => Except.ok (db, [])
  | n + 1, now, mode, db =>
    match use_credit now mode none db with
    | Except.error e => Except.error e
    | Except.ok (db2, _, flag) =>
      match iterate_use n now mode db2 with
      | Except.error e => Except.error e
      | Except.ok (db3, flags) => Except.ok (db3, flag :: flags)

/-- `needle` is a prefix of `hay` (over character lists). -/
def charsStartWith : List Char → List Char → Bool
  | [], _ => true
  | _ :: _, [] => false
  | a :: as, b :: bs => a == b && charsStartWith as bs

/-- `needle` occurs somewhere in `hay` (over character lists). -/
def charsContain (hay needle : List Char) : Bool :=
  match hay with
  | [] => needle.isEmpty
  | _ :: t => charsStartWith needle hay || charsContain t needle

/-- Python's `needle in haystack` substring test. -/
def strContains (haystack needle : String) : Bool :=
  charsContain haystack.data needle.data

structure PurchaseNotificationRequest where
  user_id : String
  product_id : String
  transaction_id : String
  purchase_type : String
  revenue_cat_data : String
deriving DecidableEq

/-- The `credit_amounts` product table inside `purchase_notification`. -/
def credit_amounts : List (String × Int) :=
  [("credits_5", 5), ("credits_10", 10), ("credits_25", 25), ("credits_50", 50)]

/-- `POST /purchase-notification` (`purchase_notification` in
`subscription_api.py`). The handler never raises on these pure paths; it
logs a `Transaction`, applies the tier / credit changes, appends the ledger
entries, and saves the user. -/
def purchase_notification (now : Datetime) (request : PurchaseNotificationRequest)
    (db : DB) : DB :=
  let db :=
    { db with transactions := db.transactions ++
        [{ product_id := request.product_id, transaction_id := request.transaction_id,
           purchase_type := request.purchase_type,
           revenue_cat_data := request.revenue_cat_data }] }
  let u := db.user
  if request.purchase_type = "subscription" then
    let was_free_user := u.subscription_tier = "free"
    if strContains request.product_id "premium_monthly" then
      let u :=
        { u with subscription_tier := "premium_monthly",
                 subscription_expires_at := some { base := now, plusDays := 30 },
                 premium_usage_this_month := 0,
                 premium_usage_reset_date := some now }
      if was_free_user then
        { db with
            user := { u with credits := u.credits + PREMIUM_CREDITS_ON_UPGRADE },
            credit_transactions := db.credit_transactions ++
              [{ credits := PREMIUM_CREDITS_ON_UPGRADE, transaction_type := "reward",
                 description := some "Premium Monthly Upgrade - Welcome bonus",
                 transaction_id := some request.transaction_id, receipt_data := none }] }
      else
        { db with user := u }
    else if strContains request.product_id "premium_yearly" then
      let u :=
        { u with subscription_tier := "premium_yearly",
                 subscription_expires_at := some { base := now, plusDays := 365 },
                 premium_usage_this_month := 0,
                 premium_usage_reset_date := some now }
      if was_free_user then
        let bonus_credits := PREMIUM_CREDITS_ON_UPGRADE + PREMIUM_YEARLY_BONUS
        { db with
            user := { u with credits := u.credits + bonus_credits },
            credit_transactions := db.credit_transactions ++
              [{ credits := bonus_credits, transaction_type := "reward",
                 description := some "Premium Yearly Upgrade - Welcome bonus + annual bonus",
                 transaction_id := some request.transaction_id, receipt_data := none }] }
      else
        { db with
            user := { u with credits := u.credits + PREMIUM_YEARLY_BONUS },
            credit_transactions := db.credit_transactions ++
              [{ credits := PREMIUM_YEARLY_BONUS, transaction_type := "reward",
                 description := some "Premium Yearly Subscription - Annual bonus",
                 transaction_id := some request.transaction_id, receipt_data := none }] }
    else
      db
  else if request.purchase_type = "credit_pack" then
    let credits_to_add := (credit_amounts.lookup request.product_id).getD 0
    { db with
        user := { u with credits := u.credits + credits_to_add },
        credit_transactions := db.credit_transactions ++
          [{ credits := credits_to_add, transaction_type := "purchase",
             description := none,
             transaction_id := some request.transaction_id,
             receipt_data := some request.revenue_cat_data }] }
  else
    db

/-- `Subscription` document (`app/models/database.py`). Timestamps here are
in whole days (the endpoint only ever adds `timedelta(days = n)` and compares
order, so days are a faithful unit). -/
structure Subscription where
  user_id : Nat
  tier : String
  status : String
  start_date : Nat
  end_date : Option Nat
  trial_end_date : Option Nat
  cancelled_at : Option Nat
  transaction_id : String
  receipt_data : String
  auto_renew : Bool
deriving DecidableEq

/-- `Subscription.is_active` from `app/models/database.py`. -/
def Subscription.is_active (s : Subscription) (now : Nat) : Bool :=
  if ¬ (["active", "trial"].contains s.status) then false
  else
    match s.end_date with
    | some e => if e < now then false else true
    | none => true

/-- The per-record update performed by the cancellation loop in
`create_subscription`: the query selects exactly this user's records with
`status == ACTIVE`, and each of them is saved back with `status = CANCELLED`. -/
def cancel_active_for (uid : Nat) (s : Subscription) : Subscription :=
  if s.user_id = uid ∧ s.status = "active" then { s with status := "cancelled" } else s

/-- `POST /subscribe` (`create_subscription` in `subscription_api.py`).
Returns the updated subscription store together with the inserted record. -/
def create_subscription (now : Nat) (uid : Nat) (tier transaction_id receipt_data : String)
    (store : List Subscription) : Except HTTPError (List Subscription × Subscription) :=
  let mk : Nat → Except HTTPError (List Subscription × Subscription) := fun days =>
    let end_date := now + days
    let trial_end_date : Option Nat := some (now + 7)
    let store := store.map (cancel_active_for uid)
    let subscription : Subscription :=
      { user_id := uid, tier := tier,
        status := if trial_end_date.isSome then "trial" else "active",
        start_date := now, end_date := some end_date,
        trial_end_date := trial_end_date, cancelled_at := none,
        transaction_id := transaction_id, receipt_data := receipt_data,
        auto_renew := true }
    Except.ok (store ++ [subscription], subscription)
  if tier = "premium_monthly" then mk 30
  else if tier = "premium_yearly" then mk 365
  else Except.error { code := 400, detail := "Invalid subscription tier" }

/-! ### Share verification (`app/routers/share.py`)

Instants here are seconds since an epoch aligned to midnight UTC, so
`now.replace(hour=0, minute=0, second=0, microsecond=0)` is `now - now % 86400`
and `timedelta(hours=6)` is `21600` seconds. The outbound `HEAD` request of
`_verify_share_url` is external I/O and enters the model as the boolean
oracle `url_reachable` (for a missing URL the source skips the check). -/

/-- Python's `str.lower()` (character-wise lowercase). -/
def strLower (s : String) : String := String.mk (s.data.map Char.toLower)

def SUPPORTED_PLATFORMS : List String := ["instagram", "tiktok"]

/-- `REQUIRED_HASHTAG.lower()` (the constant is already lowercase). -/
def REQUIRED_HASHTAG : String := "#everwithapp"

def MAX_REWARDS_PER_DAY : Nat := 3

/-- `timedelta(hours=COOLDOWN_HOURS)` in seconds. -/
def COOLDOWN_SECONDS : Nat := 21600

/-- `ShareEvent` document (`app/models/database.py`). -/
structure ShareEventRec where
  id : Nat
  user_id : Nat
  share_type : String
  platform : String
  share_url : Option String
  caption : Option String
  hashtags : List String
  reward_credits : Int
  verification_status : String
  verified : Bool
  verified_at : Option Nat
  created_at : Nat
deriving DecidableEq

/-- `UserStats` document, restricted to the fields `verify_share` touches. -/
structure UserStatsRec where
  total_shares : Int
  credits_earned_from_shares : Int
deriving DecidableEq

/-- The slice of the store `verify_share` reads and writes for the current
user: the share events collection, the user's credit balance, the credit
ledger and the user's stats row (if any). -/
structure ShareState where
  events : List ShareEventRec
  credits : Int
  ledger : List CreditTransactionRec
  stats : Option UserStatsRec
deriving DecidableEq

/-- `ShareVerificationRequest` payload. -/
structure SharePayload where
  platform : String
  share_url : Option String
  caption : Option String
  hashtags : List String
  share_type : String
deriving DecidableEq

structure ShareVerificationResponse where
  message : String
  credits_awarded : Int
  new_credit_balance : Int
  verification_id : Nat
  already_claimed : Bool
deriving DecidableEq

/-- The distinct `HTTPException`s `verify_share` can raise. -/
inductive ShareError where
  | unsupported_platform
  | missing_hashtag
  | unreachable_url
  | duplicate_url
  | daily_limit
deriving DecidableEq

/-- HTTP status of each `verify_share` exception (`share.py`): the daily cap
is `429 TOO_MANY_REQUESTS`, everything else `400 BAD_REQUEST`. -/
def shareErrorCode : ShareError → Nat
  | ShareError.daily_limit => 429
  | _ => 400

/-- `_validate_hashtag`: the (lowercased) required hashtag must occur in the
lowercased hashtag list or as a substring of the lowercased caption. -/
def hashtag_present (payload : SharePayload) : Bool :=
  (payload.hashtags.map strLower).contains REQUIRED_HASHTAG
    || strContains (strLower (payload.caption.getD "")) REQUIRED_HASHTAG

/-- The duplicate-URL lookup in `verify_share` (`ShareEvent.find_one` on
`share_url == str(payload.share_url)` and `user_id == current_user.id`);
skipped when the payload carries no URL. -/
def duplicate_submission (uid : Nat) (share_url : Option String)
    (events : List ShareEventRec) : Bool :=
  match share_url with
  | some url => events.any (fun e => e.share_url == some url && e.user_id == uid)
  | none => false

/-- The daily-cap count in `_enforce_limits`: verified events of this user
created at or after the start of the current UTC day. -/
def daily_verified_count (uid : Nat) (now : Nat) (events : List ShareEventRec) : Nat :=
  (events.filter (fun e =>
    e.user_id == uid && decide (now - now % 86400 ≤ e.created_at) && e.verified)).length

/-- The cooldown query in `_enforce_limits`: the most recent (maximal
`created_at`) verified event of this user within the cooldown cutoff. -/
def most_recent_in_cooldown (uid : Nat) (now : Nat) (events : List ShareEventRec) :
    Option ShareEventRec :=
  (events.filter (fun e =>
    e.user_id == uid && decide (now - COOLDOWN_SECONDS ≤ e.created_at) && e.verified)).foldl
    (fun acc e =>
      match acc with
      | none => some e
      | some r => if r.created_at < e.created_at then some e else some r)
    none

/-- The reward tail of `verify_share`: insert the verified `ShareEvent`,
credit the user, append the ledger entry, and upsert the stats row. New
events receive the next fresh id. -/
def share_grant (now : Nat) (uid : Nat) (payload : SharePayload) (platform : String)
    (st : ShareState) : ShareState × ShareVerificationResponse :=
  let share_event : ShareEventRec :=
    { id := st.events.length, user_id := uid, share_type := payload.share_type,
      platform := platform, share_url := payload.share_url,
      caption := payload.caption, hashtags := payload.hashtags.map strLower,
      reward_credits := 1, verification_status := "verified", verified := true,
      verified_at := some now, created_at := now }
  let credits2 := st.credits + share_event.reward_credits
  let txn : CreditTransactionRec :=
    { credits := share_event.reward_credits, transaction_type := "reward",
      description := some (s!"Verified share on {platform}"),
      transaction_id := none, receipt_data := none }
  let stats2 :=
    match st.stats with
    | some s =>
      some { s with total_shares := s.total_shares + 1,
                    credits_earned_from_shares :=
                      s.credits_earned_from_shares + share_event.reward_credits }
    | none =>
      some { total_shares := 1,
             credits_earned_from_shares := share_event.reward_credits }
  ({ events := st.events ++ [share_event], credits := credits2,
     ledger := st.ledger ++ [txn], stats := stats2 },
   { message := "Thanks for sharing! You have earned +1 credit.",
     credits_awarded := share_event.reward_credits,
     new_credit_balance := credits2,
     verification_id := share_event.id, already_claimed := false })

/-- The `cooldown_remaining` / `hours` message of the cooldown denial branch
of `verify_share` (factored out so theorems can name the response verbatim). -/
def share_cooldown_message (recent_share : ShareEventRec) (now : Nat) : String :=
  let cooldown_remaining : Int :=
    ((recent_share.created_at + COOLDOWN_SECONDS : Nat) : Int) - (now : Int)
  let hours := cooldown_remaining / 3600 + 1
  s!"You can earn another share credit in about {hours} hour(s)."

/-- `POST /api/share/verify` (`verify_share` in `share.py`). Checks run in
source order: platform allow-list, required hashtag, URL reachability,
lifetime per-user URL dedup, daily cap (429), then the 6-hour cooldown —
which is answered with a normal `already_claimed` response, not an
exception — and finally the reward path. -/
def verify_share (now : Nat) (uid : Nat) (payload : SharePayload)
    (url_reachable : Bool) (st : ShareState) :
    Except ShareError (ShareState × ShareVerificationResponse) :=
  let platform := strLower payload.platform
  if ¬ SUPPORTED_PLATFORMS.contains platform then
    Except.error ShareError.unsupported_platform
  else if ¬ hashtag_present payload then
    Except.error ShareError.missing_hashtag
  else if payload.share_url.isSome ∧ url_reachable = false then
    Except.error ShareError.unreachable_url
  else if duplicate_submission uid payload.share_url st.events then
    Except.error ShareError.duplicate_url
  else if MAX_REWARDS_PER_DAY ≤ daily_verified_count uid now st.events then
    Except.error ShareError.daily_limit
  else
    match most_recent_in_cooldown uid now st.events with
    | some recent_share =>
      let cooldown_remaining : Int :=
        ((recent_share.created_at + COOLDOWN_SECONDS : Nat) : Int) - (now : Int)
      if 0 < cooldown_remaining then
        Except.ok
          (st,
           { message := share_cooldown_message recent_share now,
             credits_awarded := 0, new_credit_balance := st.credits,
             verification_id := recent_share.id, already_claimed := true })
      else
        Except.ok (share_grant now uid payload platform st)
    | none =>
      Except.ok (share_grant now uid payload platform st)

/-- Persisted share state after a `verify_share` call: a raised exception
aborts the handler before any insert or save. -/
def apply_verify_share (now : Nat) (uid : Nat) (payload : SharePayload)
    (url_reachable : Bool) (st : ShareState) : ShareState :=
  match verify_share now uid payload url_reachable st with
  | Except.ok (st2, _) => st2
  | Except.error _ => st

/-! ### Helper lemmas -/

lemma reset_premium_credits_eq (now : Datetime) (u : User) :
    ((reset_premium_usage_tracking now u).2).credits = u.credits := by
  unfold reset_premium_usage_tracking
  split
  · split
    · rfl
    · split <;> rfl
  · rfl

lemma reset_premium_tier_eq (now : Datetime) (u : User) :
    ((reset_premium_usage_tracking now u).2).subscription_tier = u.subscription_tier := by
  unfold reset_premium_usage_tracking
  split
  · split
    · rfl
    · split <;> rfl
  · rfl

lemma reset_free_same_month (now : Datetime) (u : User) (d : Datetime)
    (ht : u.subscription_tier = "free") (hw : u.monthly_credits_reset_date = some d)
    (hm : d.month = now.month) (hy : d.year = now.year) :
    reset_free_user_monthly_credits now u = (false, u) := by
  simp [reset_free_user_monthly_credits, ht, hw, hm, hy]

lemma reset_free_fires (now : Datetime) (u : User)
    (ht : u.subscription_tier = "free")
    (hw : ∀ d, u.monthly_credits_reset_date = some d →
      d.month ≠ now.month ∨ d.year ≠ now.year) :
    reset_free_user_monthly_credits now u =
      (true, { u with monthly_credits_reset_date := some now,
                      credits := FREE_MONTHLY_CREDITS }) := by
  unfold reset_free_user_monthly_credits
  rw [if_pos ht]
  cases h : u.monthly_credits_reset_date with
  | none => rfl
  | some d => exact if_pos (hw d h)

lemma reset_premium_same_month (now : Datetime) (u : User) (d : Datetime)
    (ht : premiumTiers.contains u.subscription_tier = true)
    (hw : u.premium_usage_reset_date = some d)
    (hm : d.month = now.month) (hy : d.year = now.year) :
    reset_premium_usage_tracking now u = (false, u) := by
  simp [reset_premium_usage_tracking, ht, hw, hm, hy]

lemma reset_premium_fires (now : Datetime) (u : User) (d : Datetime)
    (ht : premiumTiers.contains u.subscription_tier = true)
    (hw : u.premium_usage_reset_date = some d)
    (hdiff : d.month ≠ now.month ∨ d.year ≠ now.year) :
    reset_premium_usage_tracking now u =
      (true, { u with premium_usage_this_month := 0,
                      premium_usage_reset_date := some now }) := by
  unfold reset_premium_usage_tracking
  rw [if_pos ht, hw]
  exact if_pos hdiff

lemma check_access_saved_flag (now : Datetime) (mode : String) (u : User) :
    (check_access now mode u).2.2 = false := by
  unfold check_access
  dsimp only
  split <;> rfl

lemma reset_free_true_eq (t1 : Datetime) (uf u1 : User)
    (h : reset_free_user_monthly_credits t1 uf = (true, u1)) :
    uf.subscription_tier = "free" ∧
    u1 = { uf with monthly_credits_reset_date := some t1,
                   credits := FREE_MONTHLY_CREDITS } := by
  unfold reset_free_user_monthly_credits at h
  split at h
  · refine ⟨by assumption, ?_⟩
    split at h
    · exact ((Prod.mk.injEq _ _ _ _).mp h).2.symm
    · split at h
      · exact ((Prod.mk.injEq _ _ _ _).mp h).2.symm
      · exact absurd ((Prod.mk.injEq _ _ _ _).mp h).1 Bool.false_ne_true
  · exact absurd ((Prod.mk.injEq _ _ _ _).mp h).1 Bool.false_ne_true

lemma reset_premium_true_eq (t1 : Datetime) (up u2 : User)
    (h : reset_premium_usage_tracking t1 up = (true, u2)) :
    premiumTiers.contains up.subscription_tier = true ∧
    u2 = { up with premium_usage_this_month := 0,
                   premium_usage_reset_date := some t1 } := by
  unfold reset_premium_usage_tracking at h
  split at h
  · refine ⟨by assumption, ?_⟩
    split at h
    · exact ((Prod.mk.injEq _ _ _ _).mp h).2.symm
    · split at h
      · exact ((Prod.mk.injEq _ _ _ _).mp h).2.symm
      · exact absurd ((Prod.mk.injEq _ _ _ _).mp h).1 Bool.false_ne_true
  · exact absurd ((Prod.mk.injEq _ _ _ _).mp h).1 Bool.false_ne_true

/-! ### Claims -/

/-- C10: `check_access` never persists any state change: although the access
check applies the monthly reset rules to the in-memory user object (and can
thereby alter its credits, usage counter and watermarks, as the second
conjunct shows on a stale free-tier user), the endpoint issues no save of
the user record, so for every user, mode and current time the stored user
document is identical before and after the call. -/
theorem check_access_no_persist :
    (∀ (now : Datetime) (mode : String) (u : User),
      check_access_stored now mode u = u) ∧
    (∃ (now : Datetime) (mode : String) (u : User),
      (check_access now mode u).2.1 ≠ u) := by
  constructor
  · intro now mode u
    show (if (check_access now mode u).2.2 then (check_access now mode u).2.1 else u) = u
    rw [check_access_saved_flag]
    rfl
  · refine ⟨⟨2025, 6, 0⟩, "restore",
      { subscription_tier := "free", subscription_expires_at := none, credits := 0,
        free_uses_remaining := 0, monthly_credits_reset_date := some ⟨2025, 5, 0⟩,
        premium_usage_this_month := 0, premium_usage_reset_date := none }, ?_⟩
    decide

/-- C1 (code bug): `use_credit` does NOT re-apply the free-tier monthly
reset that `check_access` applies through `can_use_feature`, so the two
disagree on equal inputs. Failing input: a free-tier user with 0 credits
whose `monthly_credits_reset_date` is in May 2025, calling mode `restore`
in June 2025 — `check_access` reports `has_access = true` (after resetting
the in-memory balance to 3) while `use_credit` raises HTTP 402. -/
theorem use_credit_check_access_divergence :
    (check_access ⟨2025, 6, 0⟩ "restore"
      { subscription_tier := "free", subscription_expires_at := none, credits := 0,
        free_uses_remaining := 0, monthly_credits_reset_date := some ⟨2025, 5, 0⟩,
        premium_usage_this_month := 0, premium_usage_reset_date := none }).1.has_access
      = true ∧
    exceptCode (use_credit ⟨2025, 6, 0⟩ "restore" none
      { user := { subscription_tier := "free", subscription_expires_at := none, credits := 0,
                  free_uses_remaining := 0, monthly_credits_reset_date := some ⟨2025, 5, 0⟩,
                  premium_usage_this_month := 0, premium_usage_reset_date := none },
        usage_logs := [], credit_transactions := [], transactions := [] })
      = some 402 := by
  constructor
  · rfl
  · rfl

/-- C3: for a free-tier user whose `monthly_credits_reset_date` lies in an
earlier calendar month (or is unset), the reset performed on the first
access of the new month returns `True`, sets `credits` to exactly
`FREE_MONTHLY_CREDITS = 3` (an overwrite of the prior balance, not an
addition) and advances the watermark to the current instant. -/
theorem free_monthly_reset_overwrites (now : Datetime) (u : User)
    (ht : u.subscription_tier = "free")
    (hw : u.monthly_credits_reset_date = none ∨
      ∃ d, u.monthly_credits_reset_date = some d ∧
        (d.year < now.year ∨ (d.year = now.year ∧ d.month < now.month))) :
    reset_free_user_monthly_credits now u =
      (true, { u with monthly_credits_reset_date := some now,
                      credits := FREE_MONTHLY_CREDITS }) ∧
    FREE_MONTHLY_CREDITS = 3 := by
  refine ⟨?_, rfl⟩
  apply reset_free_fires now u ht
  intro d hd
  rcases hw with hnone | ⟨d2, hd2, hlt⟩
  · rw [hnone] at hd
    cases hd
  · rw [hd2] at hd
    have hdd : d2 = d := by injection hd
    subst hdd
    rcases hlt with h | ⟨hy2, hm2⟩
    · exact Or.inr (by omega)
    · exact Or.inl (by omega)

/-- C3 witness: a free user holding 7 credits with a May 2025 watermark has
exactly 3 credits (and a June watermark) after the first access in
June 2025. -/
theorem free_monthly_reset_overwrites_witness :
    (({ subscription_tier := "free", subscription_expires_at := none, credits := 7,
        free_uses_remaining := 0, monthly_credits_reset_date := some ⟨2025, 5, 3⟩,
        premium_usage_this_month := 0, premium_usage_reset_date := none } : User).subscription_tier
      = "free") ∧
    (reset_free_user_monthly_credits ⟨2025, 6, 1⟩
      { subscription_tier := "free", subscription_expires_at := none, credits := 7,
        free_uses_remaining := 0, monthly_credits_reset_date := some ⟨2025, 5, 3⟩,
        premium_usage_this_month := 0, premium_usage_reset_date := none } =
      (true, { subscription_tier := "free", subscription_expires_at := none, credits := 3,
               free_uses_remaining := 0, monthly_credits_reset_date := some ⟨2025, 6, 1⟩,
               premium_usage_this_month := 0, premium_usage_reset_date := none }) ∧
     FREE_MONTHLY_CREDITS = 3) := by
  refine ⟨rfl, ?_⟩
  exact free_monthly_reset_overwrites ⟨2025, 6, 1⟩
    { subscription_tier := "free", subscription_expires_at := none, credits := 7,
      free_uses_remaining := 0, monthly_credits_reset_date := some ⟨2025, 5, 3⟩,
      premium_usage_this_month := 0, premium_usage_reset_date := none }
    rfl (Or.inr ⟨⟨2025, 5, 3⟩, rfl, Or.inr ⟨rfl, by decide⟩⟩)

/-- C9: the monthly reset checks are idempotent within a period: if a call
at `t1` performed a reset (returned `True`), a second call at any `t2` in
the same calendar month returns `False` and leaves the user record —
credits, premium usage counter and both watermarks — entirely unchanged.
Stated for both the free-credit reset and the premium-usage reset. -/
theorem monthly_reset_idempotent (uf up u1 u2 : User) (t1 t2 : Datetime)
    (hm : t2.month = t1.month) (hy : t2.year = t1.year) :
    (reset_free_user_monthly_credits t1 uf = (true, u1) →
      reset_free_user_monthly_credits t2 u1 = (false, u1)) ∧
    (reset_premium_usage_tracking t1 up = (true, u2) →
      reset_premium_usage_tracking t2 u2 = (false, u2)) := by
  constructor
  · intro h
    obtain ⟨htier, hu⟩ := reset_free_true_eq t1 uf u1 h
    subst hu
    exact reset_free_same_month t2 _ t1 htier rfl hm.symm hy.symm
  · intro h
    obtain ⟨htier, hu⟩ := reset_premium_true_eq t1 up u2 h
    subst hu
    exact reset_premium_same_month t2 _ t1 htier rfl hm.symm hy.symm

/-- C9 witness: concrete free and premium users whose first reset fires on
June 5, 2025; the repeated check on June 20, 2025 is a no-op returning
`False`. -/
theorem monthly_reset_idempotent_witness :
    ((⟨2025, 6, 20⟩ : Datetime).month = (⟨2025, 6, 5⟩ : Datetime).month ∧
     (⟨2025, 6, 20⟩ : Datetime).year = (⟨2025, 6, 5⟩ : Datetime).year) ∧
    ((reset_free_user_monthly_credits ⟨2025, 6, 5⟩
        { subscription_tier := "free", subscription_expires_at := none, credits := 7,
          free_uses_remaining := 0, monthly_credits_reset_date := some ⟨2025, 5, 0⟩,
          premium_usage_this_month := 0, premium_usage_reset_date := none } =
      (true, { subscription_tier := "free", subscription_expires_at := none, credits := 3,
               free_uses_remaining := 0, monthly_credits_reset_date := some ⟨2025, 6, 5⟩,
               premium_usage_this_month := 0, premium_usage_reset_date := none }) →
      reset_free_user_monthly_credits ⟨2025, 6, 20⟩
        { subscription_tier := "free", subscription_expires_at := none, credits := 3,
          free_uses_remaining := 0, monthly_credits_reset_date := some ⟨2025, 6, 5⟩,
          premium_usage_this_month := 0, premium_usage_reset_date := none } =
      (false, { subscription_tier := "free", subscription_expires_at := none, credits := 3,
                free_uses_remaining := 0, monthly_credits_reset_date := some ⟨2025, 6, 5⟩,
                premium_usage_this_month := 0, premium_usage_reset_date := none })) ∧
     (reset_premium_usage_tracking ⟨2025, 6, 5⟩
        { subscription_tier := "premium_monthly", subscription_expires_at := none, credits := 9,
          free_uses_remaining := 0, monthly_credits_reset_date := none,
          premium_usage_this_month := 42, premium_usage_reset_date := some ⟨2025, 5, 0⟩ } =
      (true, { subscription_tier := "premium_monthly", subscription_expires_at := none, credits := 9,
               free_uses_remaining := 0, monthly_credits_reset_date := none,
               premium_usage_this_month := 0, premium_usage_reset_date := some ⟨2025, 6, 5⟩ }) →
      reset_premium_usage_tracking ⟨2025, 6, 20⟩
        { subscription_tier := "premium_monthly", subscription_expires_at := none, credits := 9,
          free_uses_remaining := 0, monthly_credits_reset_date := none,
          premium_usage_this_month := 0, premium_usage_reset_date := some ⟨2025, 6, 5⟩ } =
      (false, { subscription_tier := "premium_monthly", subscription_expires_at := none, credits := 9,
                free_uses_remaining := 0, monthly_credits_reset_date := none,
                premium_usage_this_month := 0, premium_usage_reset_date := some ⟨2025, 6, 5⟩ }))) := by
  refine ⟨⟨rfl, rfl⟩, ?_⟩
  exact monthly_reset_idempotent _ _ _ _ ⟨2025, 6, 5⟩ ⟨2025, 6, 20⟩ rfl rfl

lemma apply_use_nonneg (now : Datetime) (mode : String) (t : Option String)
    (db : DB) (h : 0 ≤ db.user.credits) :
    0 ≤ (apply_use now mode t db).user.credits := by
  unfold apply_use
  by_cases hp : premiumTiers.contains db.user.subscription_tier
  · by_cases hl : PREMIUM_SOFT_LIMIT ≤
        ((reset_premium_usage_tracking now db.user).2).premium_usage_this_month
    · simp only [use_credit, hp, if_true, hl, if_pos]
      exact h
    · simp only [use_credit, hp, if_true, hl, if_neg, if_false]
      rw [reset_premium_credits_eq]
      exact h
  · by_cases hc : get_credit_cost (service_type_for mode) ≤ db.user.credits
    · simp only [use_credit, hp, if_false, hc, if_true, if_pos]
      show 0 ≤ db.user.credits - get_credit_cost (service_type_for mode)
      omega
    · simp only [use_credit, hp, if_false, hc, if_neg]
      exact h

lemma fold_use_nonneg (calls : List (Datetime × String × Option String)) :
    ∀ db : DB, 0 ≤ db.user.credits → 0 ≤ (fold_use calls db).user.credits := by
  induction calls with
  | nil => intro db h; exact h
  | cons c cs ih =>
    intro db h
    show 0 ≤ (List.foldl _ (apply_use c.1 c.2.1 c.2.2 db) cs).user.credits
    exact ih _ (apply_use_nonneg c.1 c.2.1 c.2.2 db h)

/-- Concrete free-tier store fixture: 2 credits, watermark in June 2025. -/
def sample_free_db : DB :=
  { user :=
      { subscription_tier := "free",
        subscription_expires_at := none,
        credits := 2,
        free_uses_remaining := 0,
        monthly_credits_reset_date := some ⟨2025, 6, 0⟩,
        premium_usage_this_month := 0,
        premium_usage_reset_date := none },
    usage_logs := [], credit_transactions := [], transactions := [] }

/-- C2: starting from any store whose user has `credits ≥ 0`, every sequence
of `use_credit` calls keeps the persisted balance at `≥ 0`; a free-tier call
whose cost exceeds the balance raises HTTP 402 and leaves the store
unchanged (all-or-nothing), and a successful free-tier call decrements the
balance by exactly the service cost. -/
theorem credits_nonneg_invariant (db : DB) (h0 : 0 ≤ db.user.credits) :
    (∀ calls : List (Datetime × String × Option String),
      0 ≤ (fold_use calls db).user.credits) ∧
    (∀ (now : Datetime) (mode : String) (t : Option String),
      db.user.subscription_tier = "free" →
      db.user.credits < get_credit_cost (service_type_for mode) →
      exceptCode (use_credit now mode t db) = some 402 ∧
      apply_use now mode t db = db) ∧
    (∀ (now : Datetime) (mode : String) (t : Option String),
      db.user.subscription_tier = "free" →
      get_credit_cost (service_type_for mode) ≤ db.user.credits →
      ∃ db2 resp, use_credit now mode t db = Except.ok (db2, resp, true) ∧
        db2.user.credits = db.user.credits - get_credit_cost (service_type_for mode)) := by
  refine ⟨fun calls => fold_use_nonneg calls db h0, ?_, ?_⟩
  · intro now mode t hfree hlt
    have hp : premiumTiers.contains db.user.subscription_tier = false := by
      rw [hfree]; rfl
    have hc : ¬ get_credit_cost (service_type_for mode) ≤ db.user.credits := not_le.mpr hlt
    constructor
    · simp only [use_credit, hp, Bool.false_eq_true, if_false, hc, if_neg, exceptCode]
    · simp only [apply_use, use_credit, hp, Bool.false_eq_true, if_false, hc, if_neg]
  · intro now mode t hfree hc
    have hp : premiumTiers.contains db.user.subscription_tier = false := by
      rw [hfree]; rfl
    simp only [use_credit, hp, Bool.false_eq_true, if_false, hc, if_true, if_pos]
    exact ⟨_, _, rfl, rfl⟩

/-- C2 witness: on the concrete `sample_free_db` (a free user with 2
credits) the invariant theorem applies: the balance stays non-negative over
every call sequence, over-cost calls 402 without mutation, and successful
calls subtract exactly the cost. -/
theorem credits_nonneg_invariant_witness :
    (0 : Int) ≤ sample_free_db.user.credits ∧
    ((∀ calls : List (Datetime × String × Option String),
        0 ≤ (fold_use calls sample_free_db).user.credits) ∧
     (∀ (now : Datetime) (mode : String) (t : Option String),
        sample_free_db.user.subscription_tier = "free" →
        sample_free_db.user.credits < get_credit_cost (service_type_for mode) →
        exceptCode (use_credit now mode t sample_free_db) = some 402 ∧
        apply_use now mode t sample_free_db = sample_free_db) ∧
     (∀ (now : Datetime) (mode : String) (t : Option String),
        sample_free_db.user.subscription_tier = "free" →
        get_credit_cost (service_type_for mode) ≤ sample_free_db.user.credits →
        ∃ db2 resp, use_credit now mode t sample_free_db = Except.ok (db2, resp, true) ∧
          db2.user.credits =
            sample_free_db.user.credits - get_credit_cost (service_type_for mode))) :=
  ⟨by decide, credits_nonneg_invariant sample_free_db (by decide)⟩

lemma use_credit_premium_step (now : Datetime) (mode : String) (db : DB) (d : Datetime)
    (ht : premiumTiers.contains db.user.subscription_tier = true)
    (hw : db.user.premium_usage_reset_date = some d)
    (hm : d.month = now.month) (hy : d.year = now.year)
    (hlt : db.user.premium_usage_this_month < PREMIUM_SOFT_LIMIT) :
    use_credit now mode none db = Except.ok
      ({ db with
          user := { db.user with
            premium_usage_this_month := db.user.premium_usage_this_month + 1 },
          usage_logs := db.usage_logs ++
            [{ mode := mode, used_credit := false, used_free_use := false }] },
       { success := true, remaining_credits := db.user.credits,
         free_uses_remaining := 0,
         message := "Processing started (Premium - Unlimited access)" },
       false) := by
  have hr := reset_premium_same_month now db.user d ht hw hm hy
  have hl : ¬ PREMIUM_SOFT_LIMIT ≤
      ((reset_premium_usage_tracking now db.user).2).premium_usage_this_month := by
    rw [hr]
    exact not_le.mpr hlt
  simp only [use_credit, ht, if_true, hl, if_neg, if_false, hr]
  rw [if_neg (not_le.mpr hlt)]

lemma use_credit_premium_at_limit (now : Datetime) (mode : String) (db : DB) (d : Datetime)
    (ht : premiumTiers.contains db.user.subscription_tier = true)
    (hw : db.user.premium_usage_reset_date = some d)
    (hm : d.month = now.month) (hy : d.year = now.year)
    (hge : PREMIUM_SOFT_LIMIT ≤ db.user.premium_usage_this_month) :
    exceptCode (use_credit now mode none db) = some 429 := by
  have hr := reset_premium_same_month now db.user d ht hw hm hy
  have hl : PREMIUM_SOFT_LIMIT ≤
      ((reset_premium_usage_tracking now db.user).2).premium_usage_this_month := by
    rw [hr]; exact hge
  simp only [use_credit, ht, if_true, hl, if_pos, exceptCode]

lemma use_credit_premium_rollover (now : Datetime) (mode : String) (db : DB) (d : Datetime)
    (ht : premiumTiers.contains db.user.subscription_tier = true)
    (hw : db.user.premium_usage_reset_date = some d)
    (hdiff : d.month ≠ now.month ∨ d.year ≠ now.year) :
    ∃ db3 resp, use_credit now mode none db = Except.ok (db3, resp, false) ∧
      db3.user = { db.user with
        premium_usage_this_month := 1,
        premium_usage_reset_date := some now } := by
  have hr := reset_premium_fires now db.user d ht hw hdiff
  have hl : ¬ PREMIUM_SOFT_LIMIT ≤
      ((reset_premium_usage_tracking now db.user).2).premium_usage_this_month := by
    rw [hr]
    show ¬ PREMIUM_SOFT_LIMIT ≤ (0 : Int)
    decide
  have key : use_credit now mode none db = Except.ok
      ({ db with
          user := { db.user with
            premium_usage_this_month := 1,
            premium_usage_reset_date := some now },
          usage_logs := db.usage_logs ++
            [{ mode := mode, used_credit := false, used_free_use := false }] },
       { success := true, remaining_credits := db.user.credits,
         free_uses_remaining := 0,
         message := "Processing started (Premium - Unlimited access)" },
       false) := by
    simp only [use_credit, ht, if_true, hl, if_neg, if_false, hr]
    norm_num
    intro hc
    exact absurd hc (by decide)
  exact ⟨_, _, key, rfl⟩

lemma iterate_use_premium (mode : String) (now : Datetime) (d : Datetime) :
    ∀ (n : Nat) (db : DB),
    premiumTiers.contains db.user.subscription_tier = true →
    db.user.premium_usage_reset_date = some d →
    d.month = now.month → d.year = now.year →
    db.user.premium_usage_this_month + n ≤ PREMIUM_SOFT_LIMIT →
    ∃ db2, iterate_use n now mode db = Except.ok (db2, List.replicate n false) ∧
      db2.user = { db.user with
        premium_usage_this_month := db.user.premium_usage_this_month + n } := by
  intro n
  induction n with
  | zero =>
    intro db ht hw hm hy hn
    exact ⟨db, rfl, by simp⟩
  | succ k ih =>
    intro db ht hw hm hy hn
    have hlt : db.user.premium_usage_this_month < PREMIUM_SOFT_LIMIT := by
      push_cast at hn
      omega
    have hstep := use_credit_premium_step now mode db d ht hw hm hy hlt
    obtain ⟨db2, hit, hu⟩ := ih
      { db with
          user := { db.user with
            premium_usage_this_month := db.user.premium_usage_this_month + 1 },
          usage_logs := db.usage_logs ++
            [{ mode := mode, used_credit := false, used_free_use := false }] }
      ht hw hm hy
      (by
        show db.user.premium_usage_this_month + 1 + (k : Int) ≤ PREMIUM_SOFT_LIMIT
        push_cast at hn
        omega)
    refine ⟨db2, ?_, ?_⟩
    · simp only [iterate_use, hstep, hit]
      rw [List.replicate_succ]
    · rw [hu]
      show ({ db.user with premium_usage_this_month :=
          db.user.premium_usage_this_month + 1 + (k : Int) } : User) = _
      have hc : db.user.premium_usage_this_month + 1 + (k : Int) =
          db.user.premium_usage_this_month + ((k + 1 : Nat) : Int) := by
        push_cast
        ring
      rw [hc]

/-- C5: a premium-tier user starting the month with a zero usage counter can
make exactly `PREMIUM_SOFT_LIMIT = 100` consecutive `use_credit` calls, each
succeeding with `used_credit = false` (the collected flags are 100 `false`s)
and leaving the credit balance unchanged while the usage counter climbs to
100; the 101st call raises HTTP 429; and a call after a period rollover
resets the counter (it ends at 1: reset to 0, then incremented by the
granted call) and succeeds again. -/
theorem premium_soft_limit_cycle (db : DB) (now now2 : Datetime) (mode mode2 : String)
    (d : Datetime)
    (ht : premiumTiers.contains db.user.subscription_tier = true)
    (h0 : db.user.premium_usage_this_month = 0)
    (hw : db.user.premium_usage_reset_date = some d)
    (hm : d.month = now.month) (hy : d.year = now.year)
    (hroll : d.month ≠ now2.month ∨ d.year ≠ now2.year) :
    ∃ db2, iterate_use 100 now mode db = Except.ok (db2, List.replicate 100 false) ∧
      db2.user.credits = db.user.credits ∧
      db2.user.premium_usage_this_month = 100 ∧
      exceptCode (use_credit now mode none db2) = some 429 ∧
      ∃ db3 resp, use_credit now2 mode2 none db2 = Except.ok (db3, resp, false) ∧
        db3.user.premium_usage_this_month = 1 := by
  obtain ⟨db2, hit, hu⟩ := iterate_use_premium mode now d 100 db ht hw hm hy
    (by rw [h0]; decide)
  have htier2 : premiumTiers.contains db2.user.subscription_tier = true := by
    rw [hu]; exact ht
  have hw2 : db2.user.premium_usage_reset_date = some d := by
    rw [hu]; exact hw
  have husage : db2.user.premium_usage_this_month = 100 := by
    rw [hu]
    show db.user.premium_usage_this_month + ((100 : Nat) : Int) = 100
    rw [h0]
    decide
  refine ⟨db2, hit, ?_, husage, ?_, ?_⟩
  · rw [hu]
  · exact use_credit_premium_at_limit now mode db2 d htier2 hw2 hm hy
      (by rw [husage]; decide)
  · obtain ⟨db3, resp, he, hu3⟩ :=
      use_credit_premium_rollover now2 mode2 db2 d htier2 hw2 hroll
    exact ⟨db3, resp, he, by rw [hu3]⟩

/-- Concrete premium-tier store fixture: 7 credits, zero usage, June 2025
usage watermark. -/
def sample_premium_db : DB :=
  { user :=
      { subscription_tier := "premium_monthly",
        subscription_expires_at := none,
        credits := 7,
        free_uses_remaining := 0,
        monthly_credits_reset_date := none,
        premium_usage_this_month := 0,
        premium_usage_reset_date := some ⟨2025, 6, 0⟩ },
    usage_logs := [], credit_transactions := [], transactions := [] }

/-- C5 witness: on the concrete `sample_premium_db` in June 2025, the
100-call run, the 429 on the 101st call and the July rollover all hold. -/
theorem premium_soft_limit_cycle_witness :
    (premiumTiers.contains sample_premium_db.user.subscription_tier = true ∧
     sample_premium_db.user.premium_usage_this_month = 0 ∧
     sample_premium_db.user.premium_usage_reset_date = some ⟨2025, 6, 0⟩ ∧
     (⟨2025, 6, 0⟩ : Datetime).month = (⟨2025, 6, 9⟩ : Datetime).month ∧
     (⟨2025, 6, 0⟩ : Datetime).year = (⟨2025, 6, 9⟩ : Datetime).year ∧
     ((⟨2025, 6, 0⟩ : Datetime).month ≠ (⟨2025, 7, 1⟩ : Datetime).month ∨
      (⟨2025, 6, 0⟩ : Datetime).year ≠ (⟨2025, 7, 1⟩ : Datetime).year)) ∧
    (∃ db2, iterate_use 100 ⟨2025, 6, 9⟩ "restore" sample_premium_db =
        Except.ok (db2, List.replicate 100 false) ∧
      db2.user.credits = sample_premium_db.user.credits ∧
      db2.user.premium_usage_this_month = 100 ∧
      exceptCode (use_credit ⟨2025, 6, 9⟩ "restore" none db2) = some 429 ∧
      ∃ db3 resp, use_credit ⟨2025, 7, 1⟩ "together" none db2 = Except.ok (db3, resp, false) ∧
        db3.user.premium_usage_this_month = 1) :=
  ⟨⟨rfl, rfl, rfl, rfl, rfl, Or.inl (by decide)⟩,
   premium_soft_limit_cycle sample_premium_db ⟨2025, 6, 9⟩ ⟨2025, 7, 1⟩ "restore" "together"
     ⟨2025, 6, 0⟩ rfl rfl rfl rfl rfl (Or.inl (by decide))⟩

/-- C6: applying a subscription purchase event: (a) a free-tier user with 0
credits who purchases a `premium_monthly` product ends with exactly
`PREMIUM_CREDITS_ON_UPGRADE = 50` credits and tier `premium_monthly`, with
one `reward` ledger entry of 50 appended; (b) a user already on
`premium_monthly` who purchases a `premium_yearly` product has exactly
`PREMIUM_YEARLY_BONUS = 200` added — no duplicate upgrade bonus — with one
`reward` ledger entry of 200 appended. -/
theorem upgrade_bonus (now : Datetime) (reqm reqy : PurchaseNotificationRequest)
    (dbf dbp : DB)
    (hf : dbf.user.subscription_tier = "free")
    (hf0 : dbf.user.credits = 0)
    (hmt : reqm.purchase_type = "subscription")
    (hmp : strContains reqm.product_id "premium_monthly" = true)
    (hpt : dbp.user.subscription_tier = "premium_monthly")
    (hyt : reqy.purchase_type = "subscription")
    (hyp2 : strContains reqy.product_id "premium_yearly" = true)
    (hynm : strContains reqy.product_id "premium_monthly" = false) :
    ((purchase_notification now reqm dbf).user.credits = PREMIUM_CREDITS_ON_UPGRADE ∧
     (purchase_notification now reqm dbf).user.subscription_tier = "premium_monthly" ∧
     (purchase_notification now reqm dbf).credit_transactions =
       dbf.credit_transactions ++
         [{ credits := PREMIUM_CREDITS_ON_UPGRADE, transaction_type := "reward",
            description := some "Premium Monthly Upgrade - Welcome bonus",
            transaction_id := some reqm.transaction_id, receipt_data := none }]) ∧
    ((purchase_notification now reqy dbp).user.credits =
       dbp.user.credits + PREMIUM_YEARLY_BONUS ∧
     (purchase_notification now reqy dbp).user.subscription_tier = "premium_yearly" ∧
     (purchase_notification now reqy dbp).credit_transactions =
       dbp.credit_transactions ++
         [{ credits := PREMIUM_YEARLY_BONUS, transaction_type := "reward",
            description := some "Premium Yearly Subscription - Annual bonus",
            transaction_id := some reqy.transaction_id, receipt_data := none }]) := by
  constructor
  · have hkey : purchase_notification now reqm dbf =
      { dbf with
          transactions := dbf.transactions ++
            [{ product_id := reqm.product_id, transaction_id := reqm.transaction_id,
               purchase_type := reqm.purchase_type,
               revenue_cat_data := reqm.revenue_cat_data }],
          user := { dbf.user with
            subscription_tier := "premium_monthly",
            subscription_expires_at := some { base := now, plusDays := 30 },
            premium_usage_this_month := 0,
            premium_usage_reset_date := some now,
            credits := dbf.user.credits + PREMIUM_CREDITS_ON_UPGRADE },
          credit_transactions := dbf.credit_transactions ++
            [{ credits := PREMIUM_CREDITS_ON_UPGRADE, transaction_type := "reward",
               description := some "Premium Monthly Upgrade - Welcome bonus",
               transaction_id := some reqm.transaction_id, receipt_data := none }] } := by
      simp only [purchase_notification, hmt, hmp, hf, if_true, if_pos]
    rw [hkey]
    refine ⟨?_, rfl, rfl⟩
    show dbf.user.credits + PREMIUM_CREDITS_ON_UPGRADE = PREMIUM_CREDITS_ON_UPGRADE
    rw [hf0]
    ring
  · have hnf : (dbp.user.subscription_tier = "free") = False := by
      rw [hpt]
      simp
    have hkey : purchase_notification now reqy dbp =
      { dbp with
          transactions := dbp.transactions ++
            [{ product_id := reqy.product_id, transaction_id := reqy.transaction_id,
               purchase_type := reqy.purchase_type,
               revenue_cat_data := reqy.revenue_cat_data }],
          user := { dbp.user with
            subscription_tier := "premium_yearly",
            subscription_expires_at := some { base := now, plusDays := 365 },
            premium_usage_this_month := 0,
            premium_usage_reset_date := some now,
            credits := dbp.user.credits + PREMIUM_YEARLY_BONUS },
          credit_transactions := dbp.credit_transactions ++
            [{ credits := PREMIUM_YEARLY_BONUS, transaction_type := "reward",
               description := some "Premium Yearly Subscription - Annual bonus",
               transaction_id := some reqy.transaction_id, receipt_data := none }] } := by
      simp only [purchase_notification, hyt, hyp2, hynm, hnf, if_true, if_pos,
        Bool.false_eq_true, if_false, if_neg]
    rw [hkey]
    exact ⟨rfl, rfl, rfl⟩

/-- C6 witness: concrete purchases — a free user with 0 credits buying
product `com.everwith.premium_monthly`, and a premium_monthly user with 10
credits buying `com.everwith.premium_yearly`. -/
theorem upgrade_bonus_witness :
    (("free" = "free") ∧ ((0 : Int) = 0) ∧ ("subscription" = "subscription") ∧
     strContains "com.everwith.premium_monthly" "premium_monthly" = true ∧
     strContains "com.everwith.premium_yearly" "premium_yearly" = true ∧
     strContains "com.everwith.premium_yearly" "premium_monthly" = false) ∧
    (((purchase_notification ⟨2025, 6, 0⟩
        ⟨"u1", "com.everwith.premium_monthly", "tx1", "subscription", "rc"⟩
        ⟨⟨"free", none, 0, 0, none, 0, none⟩, [], [], []⟩).user.credits
        = PREMIUM_CREDITS_ON_UPGRADE ∧
      (purchase_notification ⟨2025, 6, 0⟩
        ⟨"u1", "com.everwith.premium_monthly", "tx1", "subscription", "rc"⟩
        ⟨⟨"free", none, 0, 0, none, 0, none⟩, [], [], []⟩).user.subscription_tier
        = "premium_monthly" ∧
      (purchase_notification ⟨2025, 6, 0⟩
        ⟨"u1", "com.everwith.premium_monthly", "tx1", "subscription", "rc"⟩
        ⟨⟨"free", none, 0, 0, none, 0, none⟩, [], [], []⟩).credit_transactions
        = ([] : List CreditTransactionRec) ++
          [⟨PREMIUM_CREDITS_ON_UPGRADE, "reward",
            some "Premium Monthly Upgrade - Welcome bonus", some "tx1", none⟩]) ∧
     ((purchase_notification ⟨2025, 6, 0⟩
        ⟨"u2", "com.everwith.premium_yearly", "tx2", "subscription", "rc"⟩
        ⟨⟨"premium_monthly", none, 10, 0, none, 3, none⟩, [], [], []⟩).user.credits
        = 10 + PREMIUM_YEARLY_BONUS ∧
      (purchase_notification ⟨2025, 6, 0⟩
        ⟨"u2", "com.everwith.premium_yearly", "tx2", "subscription", "rc"⟩
        ⟨⟨"premium_monthly", none, 10, 0, none, 3, none⟩, [], [], []⟩).user.subscription_tier
        = "premium_yearly" ∧
      (purchase_notification ⟨2025, 6, 0⟩
        ⟨"u2", "com.everwith.premium_yearly", "tx2", "subscription", "rc"⟩
        ⟨⟨"premium_monthly", none, 10, 0, none, 3, none⟩, [], [], []⟩).credit_transactions
        = ([] : List CreditTransactionRec) ++
          [⟨PREMIUM_YEARLY_BONUS, "reward",
            some "Premium Yearly Subscription - Annual bonus", some "tx2", none⟩])) :=
  ⟨⟨rfl, rfl, rfl, by decide, by decide, by decide⟩,
   upgrade_bonus ⟨2025, 6, 0⟩
     ⟨"u1", "com.everwith.premium_monthly", "tx1", "subscription", "rc"⟩
     ⟨"u2", "com.everwith.premium_yearly", "tx2", "subscription", "rc"⟩
     _ _ rfl rfl rfl (by decide) rfl rfl (by decide) (by decide)⟩

lemma cancel_map_no_active (uid : Nat) :
    ∀ l : List Subscription,
    (l.map (cancel_active_for uid)).filter
      (fun s => s.user_id == uid && s.status == "active") = [] := by
  intro l
  induction l with
  | nil => rfl
  | cons a t ih =>
    simp only [List.map_cons, List.filter_cons]
    by_cases h : a.user_id = uid ∧ a.status = "active"
    · rw [cancel_active_for, if_pos h]
      have hpred : (({ a with status := "cancelled" } : Subscription).user_id == uid &&
          ({ a with status := "cancelled" } : Subscription).status == "active") = false := by
        simp
      rw [hpred, ih]
      rfl
    · rw [cancel_active_for, if_neg h]
      have hpred : (a.user_id == uid && a.status == "active") = false := by
        rw [not_and_or] at h
        rcases h with h | h
        · simp [h]
        · simp [h]
      rw [hpred, ih]
      rfl

/-- C4 counterexample: two consecutive `create_subscription` calls for the
same user, starting from an empty store, leave TWO records for which
`is_active()` holds — the endpoint creates every new record with status
`"trial"` (a 7-day trial end date is always set) but its cancellation query
only matches status `"active"`, so prior trial records are never cancelled
and the claimed at-most-one-`is_active` invariant fails. -/
theorem single_active_counterexample :
    (match create_subscription 0 0 "premium_monthly" "t1" "r1" [] with
     | Except.ok (s1, _) =>
       match create_subscription 0 0 "premium_monthly" "t2" "r2" s1 with
       | Except.ok (s2, _) =>
         (s2.filter (fun s : Subscription => s.user_id == 0 && s.is_active 0)).length
       | Except.error _ => 0
     | Except.error _ => 0) = 2 := by
  rfl

/-- C4 (amended): whenever `create_subscription` succeeds, every existing
record of that user with status `"active"` has been transitioned to
`"cancelled"` (the store is mapped through `cancel_active_for`), and the
newly inserted record has status `"trial"`; hence after the call the user
has NO subscription record with status `"active"` — but, as the
counterexample shows, several records can still satisfy `is_active()`
because trial records are never cancelled. -/
theorem create_subscription_no_active (now : Nat) (uid : Nat)
    (tier transaction_id receipt_data : String) (store store2 : List Subscription)
    (rec : Subscription)
    (h : create_subscription now uid tier transaction_id receipt_data store =
      Except.ok (store2, rec)) :
    store2 = store.map (cancel_active_for uid) ++ [rec] ∧
    rec.status = "trial" ∧
    store2.filter (fun s => s.user_id == uid && s.status == "active") = [] := by
  unfold create_subscription at h
  have main : store2 = store.map (cancel_active_for uid) ++ [rec] ∧ rec.status = "trial" := by
    by_cases h1 : tier = "premium_monthly"
    · rw [if_pos h1] at h
      have hp := (Except.ok.injEq _ _).mp h
      obtain ⟨hs, hr⟩ := (Prod.mk.injEq _ _ _ _).mp hp
      subst hs
      subst hr
      exact ⟨rfl, rfl⟩
    · rw [if_neg h1] at h
      by_cases h2 : tier = "premium_yearly"
      · rw [if_pos h2] at h
        have hp := (Except.ok.injEq _ _).mp h
        obtain ⟨hs, hr⟩ := (Prod.mk.injEq _ _ _ _).mp hp
        subst hs
        subst hr
        exact ⟨rfl, rfl⟩
      · rw [if_neg h2] at h
        exact absurd h (by simp)
  have hpred : (rec.user_id == uid && rec.status == "active") = false := by
    rw [main.2]
    simp
  refine ⟨main.1, main.2, ?_⟩
  rw [main.1, List.filter_append, cancel_map_no_active uid store]
  simp [List.filter_cons, hpred]

/-- C4 witness: a store holding one `"active"` record for user 0; after a
successful `create_subscription` the active record is cancelled, the new
record is a trial, and no record with status `"active"` remains. -/
theorem create_subscription_no_active_witness :
    (create_subscription 100 0 "premium_yearly" "t9" "r9"
        [⟨0, "premium_monthly", "active", 1, some 31, some 8, none, "t0", "r0", true⟩] =
      Except.ok
        ([⟨0, "premium_monthly", "cancelled", 1, some 31, some 8, none, "t0", "r0", true⟩,
          ⟨0, "premium_yearly", "trial", 100, some 465, some 107, none, "t9", "r9", true⟩],
         ⟨0, "premium_yearly", "trial", 100, some 465, some 107, none, "t9", "r9", true⟩)) ∧
    ([⟨0, "premium_monthly", "cancelled", 1, some 31, some 8, none, "t0", "r0", true⟩,
      ⟨0, "premium_yearly", "trial", 100, some 465, some 107, none, "t9", "r9", true⟩] =
        ([⟨0, "premium_monthly", "active", 1, some 31, some 8, none, "t0", "r0", true⟩] :
          List Subscription).map (cancel_active_for 0) ++
          [⟨0, "premium_yearly", "trial", 100, some 465, some 107, none, "t9", "r9", true⟩] ∧
     (⟨0, "premium_yearly", "trial", 100, some 465, some 107, none, "t9", "r9", true⟩ :
       Subscription).status = "trial" ∧
     ([⟨0, "premium_monthly", "cancelled", 1, some 31, some 8, none, "t0", "r0", true⟩,
       ⟨0, "premium_yearly", "trial", 100, some 465, some 107, none, "t9", "r9", true⟩] :
         List Subscription).filter
       (fun s => s.user_id == 0 && s.status == "active") = []) :=
  ⟨by decide,
   create_subscription_no_active 100 0 "premium_yearly" "t9" "r9"
     [⟨0, "premium_monthly", "active", 1, some 31, some 8, none, "t0", "r0", true⟩]
     _ _ (by decide)⟩

lemma verify_share_cooldown_eq (now : Nat) (uid : Nat) (payload : SharePayload)
    (url_reachable : Bool) (st : ShareState) (recent : ShareEventRec)
    (hplat : SUPPORTED_PLATFORMS.contains (strLower payload.platform) = true)
    (htag : hashtag_present payload = true)
    (hurl : payload.share_url.isSome → url_reachable = true)
    (hdup : duplicate_submission uid payload.share_url st.events = false)
    (hcap : daily_verified_count uid now st.events < MAX_REWARDS_PER_DAY)
    (hrec : most_recent_in_cooldown uid now st.events = some recent)
    (hwin : (now : Int) < ((recent.created_at + COOLDOWN_SECONDS : Nat) : Int)) :
    verify_share now uid payload url_reachable st = Except.ok
      (st, { message := share_cooldown_message recent now,
             credits_awarded := 0, new_credit_balance := st.credits,
             verification_id := recent.id, already_claimed := true }) := by
  have h3 : ¬ (payload.share_url.isSome = true ∧ url_reachable = false) := by
    rintro ⟨ha, hb⟩
    rw [hurl ha] at hb
    cases hb
  have h4 : ¬ duplicate_submission uid payload.share_url st.events = true := by
    simp [hdup]
  have h6 : 0 < ((recent.created_at + COOLDOWN_SECONDS : Nat) : Int) - (now : Int) := by
    omega
  simp only [verify_share]
  rw [if_neg (not_not_intro hplat), if_neg (not_not_intro htag), if_neg h3, if_neg h4,
    if_neg (not_le.mpr hcap)]
  simp only [hrec]
  rw [if_pos h6]

/-- C7 counterexample: user 0 already has three verified shares today
(created at 10000s, 20000s and 40000s; it is now 50000s), so the most
recent verified share (40000s) IS within the 6-hour cooldown window — yet
`verify_share` raises the daily-cap HTTP 429 exception instead of returning
the `already_claimed` cooldown response, because the daily-cap check runs
before the cooldown check. -/
theorem share_cooldown_counterexample :
    most_recent_in_cooldown 0 50000
      [⟨0, 0, "viral_share", "instagram", none, none, ["#everwithapp"], 1, "verified", true, some 10000, 10000⟩,
       ⟨1, 0, "viral_share", "instagram", none, none, ["#everwithapp"], 1, "verified", true, some 20000, 20000⟩,
       ⟨2, 0, "viral_share", "instagram", none, none, ["#everwithapp"], 1, "verified", true, some 40000, 40000⟩] =
      some ⟨2, 0, "viral_share", "instagram", none, none, ["#everwithapp"], 1, "verified", true, some 40000, 40000⟩ ∧
    ((50000 : Nat) : Int) < (((40000 : Nat) + COOLDOWN_SECONDS : Nat) : Int) ∧
    verify_share 50000 0 ⟨"instagram", none, none, ["#everwithapp"], "viral_share"⟩ true
      ⟨[⟨0, 0, "viral_share", "instagram", none, none, ["#everwithapp"], 1, "verified", true, some 10000, 10000⟩,
        ⟨1, 0, "viral_share", "instagram", none, none, ["#everwithapp"], 1, "verified", true, some 20000, 20000⟩,
        ⟨2, 0, "viral_share", "instagram", none, none, ["#everwithapp"], 1, "verified", true, some 40000, 40000⟩],
       5, [], none⟩ = Except.error ShareError.daily_limit ∧
    shareErrorCode ShareError.daily_limit = 429 := by
  exact ⟨by decide, by decide, by decide, rfl⟩

/-- C7 (amended): for a request that passes the preceding checks (supported
platform, required hashtag present, reachable-or-absent URL, URL not
previously submitted by this user, daily cap not reached), when the user's
most recent verified share lies strictly within the 6-hour cooldown window
`verify_share` returns a normal response — not an exception — with
`credits_awarded = 0` and `already_claimed = true`, creates no new share
event and leaves the user's balance unchanged (the returned and persisted
state are both exactly the input state). -/
theorem share_cooldown_denial (now : Nat) (uid : Nat) (payload : SharePayload)
    (url_reachable : Bool) (st : ShareState) (recent : ShareEventRec)
    (hplat : SUPPORTED_PLATFORMS.contains (strLower payload.platform) = true)
    (htag : hashtag_present payload = true)
    (hurl : payload.share_url.isSome → url_reachable = true)
    (hdup : duplicate_submission uid payload.share_url st.events = false)
    (hcap : daily_verified_count uid now st.events < MAX_REWARDS_PER_DAY)
    (hrec : most_recent_in_cooldown uid now st.events = some recent)
    (hwin : (now : Int) < ((recent.created_at + COOLDOWN_SECONDS : Nat) : Int)) :
    ∃ resp, verify_share now uid payload url_reachable st = Except.ok (st, resp) ∧
      resp.credits_awarded = 0 ∧
      resp.already_claimed = true ∧
      resp.new_credit_balance = st.credits ∧
      apply_verify_share now uid payload url_reachable st = st := by
  have hv := verify_share_cooldown_eq now uid payload url_reachable st recent
    hplat htag hurl hdup hcap hrec hwin
  refine ⟨_, hv, rfl, rfl, rfl, ?_⟩
  unfold apply_verify_share
  rw [hv]

/-- C7 witness: a single verified share at 10000s; at 12000s (within 6h) a
valid new share request is denied with `already_claimed = true`, zero
credits awarded and an unchanged store. -/
theorem share_cooldown_denial_witness :
    (SUPPORTED_PLATFORMS.contains
        (strLower (⟨"instagram", none, none, ["#everwithapp"], "viral_share"⟩ :
          SharePayload).platform) = true ∧
     hashtag_present ⟨"instagram", none, none, ["#everwithapp"], "viral_share"⟩ = true ∧
     duplicate_submission 0 none
       [⟨0, 0, "viral_share", "instagram", none, none, ["#everwithapp"], 1, "verified", true, some 10000, 10000⟩] = false ∧
     daily_verified_count 0 12000
       [⟨0, 0, "viral_share", "instagram", none, none, ["#everwithapp"], 1, "verified", true, some 10000, 10000⟩]
       < MAX_REWARDS_PER_DAY ∧
     most_recent_in_cooldown 0 12000
       [⟨0, 0, "viral_share", "instagram", none, none, ["#everwithapp"], 1, "verified", true, some 10000, 10000⟩] =
       some ⟨0, 0, "viral_share", "instagram", none, none, ["#everwithapp"], 1, "verified", true, some 10000, 10000⟩ ∧
     ((12000 : Nat) : Int) < (((10000 : Nat) + COOLDOWN_SECONDS : Nat) : Int)) ∧
    (∃ resp, verify_share 12000 0 ⟨"instagram", none, none, ["#everwithapp"], "viral_share"⟩ true
        ⟨[⟨0, 0, "viral_share", "instagram", none, none, ["#everwithapp"], 1, "verified", true, some 10000, 10000⟩],
         5, [], none⟩ =
        Except.ok
          (⟨[⟨0, 0, "viral_share", "instagram", none, none, ["#everwithapp"], 1, "verified", true, some 10000, 10000⟩],
            5, [], none⟩, resp) ∧
      resp.credits_awarded = 0 ∧
      resp.already_claimed = true ∧
      resp.new_credit_balance =
        (⟨[⟨0, 0, "viral_share", "instagram", none, none, ["#everwithapp"], 1, "verified", true, some 10000, 10000⟩],
          5, [], none⟩ : ShareState).credits ∧
      apply_verify_share 12000 0 ⟨"instagram", none, none, ["#everwithapp"], "viral_share"⟩ true
        ⟨[⟨0, 0, "viral_share", "instagram", none, none, ["#everwithapp"], 1, "verified", true, some 10000, 10000⟩],
         5, [], none⟩ =
        ⟨[⟨0, 0, "viral_share", "instagram", none, none, ["#everwithapp"], 1, "verified", true, some 10000, 10000⟩],
         5, [], none⟩) :=
  ⟨⟨by decide, by decide, by decide, by decide, by decide, by decide⟩,
   share_cooldown_denial 12000 0 ⟨"instagram", none, none, ["#everwithapp"], "viral_share"⟩ true
     ⟨[⟨0, 0, "viral_share", "instagram", none, none, ["#everwithapp"], 1, "verified", true, some 10000, 10000⟩],
      5, [], none⟩
     ⟨0, 0, "viral_share", "instagram", none, none, ["#everwithapp"], 1, "verified", true, some 10000, 10000⟩
     (by decide) (by decide) (fun h => rfl) (by decide) (by decide) (by decide) (by decide)⟩

/-- C8: once any share event with a given URL exists for a user (as
`verify_share` records one on every reward), every later `verify_share`
call by the same user supplying that same `share_url` is rejected with an
exception — regardless of the time of the call or the outcome of the URL
reachability check — and the persisted state is unchanged: no credit is
granted and no new event is created. Hence at most one reward per distinct
`share_url` per user, for all time. -/
theorem share_url_dedup_forever (st : ShareState) (uid : Nat) (url : String)
    (hmem : st.events.any (fun e => e.share_url == some url && e.user_id == uid) = true) :
    ∀ (now : Nat) (payload : SharePayload) (url_reachable : Bool),
      payload.share_url = some url →
      (∃ err, verify_share now uid payload url_reachable st = Except.error err) ∧
      apply_verify_share now uid payload url_reachable st = st := by
  intro now payload url_reachable hurl
  have key : ∃ err, verify_share now uid payload url_reachable st = Except.error err := by
    simp only [verify_share]
    by_cases h1 : ¬ SUPPORTED_PLATFORMS.contains (strLower payload.platform) = true
    · rw [if_pos h1]
      exact ⟨_, rfl⟩
    · rw [if_neg h1]
      by_cases h2 : ¬ hashtag_present payload = true
      · rw [if_pos h2]
        exact ⟨_, rfl⟩
      · rw [if_neg h2]
        by_cases h3 : payload.share_url.isSome = true ∧ url_reachable = false
        · rw [if_pos h3]
          exact ⟨_, rfl⟩
        · rw [if_neg h3]
          have hdup : duplicate_submission uid payload.share_url st.events = true := by
            rw [hurl]
            unfold duplicate_submission
            exact hmem
          rw [if_pos hdup]
          exact ⟨_, rfl⟩
  obtain ⟨err, he⟩ := key
  refine ⟨⟨err, he⟩, ?_⟩
  unfold apply_verify_share
  rw [he]

/-- C8 witness: user 0 has a recorded event with URL `https://ig/p/1`; any
resubmission of that URL (here at a much later time, with a reachable URL)
is rejected and the store is unchanged. -/
theorem share_url_dedup_forever_witness :
    (([⟨0, 0, "viral_share", "instagram", some "https://ig/p/1", none, ["#everwithapp"], 1,
        "verified", true, some 10, 10⟩] : List ShareEventRec).any
      (fun e => e.share_url == some "https://ig/p/1" && e.user_id == 0) = true ∧
     (⟨"instagram", some "https://ig/p/1", none, ["#everwithapp"], "viral_share"⟩ :
       SharePayload).share_url = some "https://ig/p/1") ∧
    ((∃ err, verify_share 999999999 0
        ⟨"instagram", some "https://ig/p/1", none, ["#everwithapp"], "viral_share"⟩ true
        ⟨[⟨0, 0, "viral_share", "instagram", some "https://ig/p/1", none, ["#everwithapp"], 1,
           "verified", true, some 10, 10⟩], 5, [], none⟩ = Except.error err) ∧
     apply_verify_share 999999999 0
        ⟨"instagram", some "https://ig/p/1", none, ["#everwithapp"], "viral_share"⟩ true
        ⟨[⟨0, 0, "viral_share", "instagram", some "https://ig/p/1", none, ["#everwithapp"], 1,
           "verified", true, some 10, 10⟩], 5, [], none⟩ =
        ⟨[⟨0, 0, "viral_share", "instagram", some "https://ig/p/1", none, ["#everwithapp"], 1,
           "verified", true, some 10, 10⟩], 5, [], none⟩) :=
  ⟨⟨by decide, rfl⟩,
   share_url_dedup_forever
     ⟨[⟨0, 0, "viral_share", "instagram", some "https://ig/p/1", none, ["#everwithapp"], 1,
        "verified", true, some 10, 10⟩], 5, [], none⟩
     0 "https://ig/p/1" (by decide) 999999999
     ⟨"instagram", some "https://ig/p/1", none, ["#everwithapp"], "viral_share"⟩ true rfl⟩
